import Mathlib

/-!
# Parsflow — verification of the job-orchestration and result-lifecycle layer

Shallow embedding of the Parsflow document-parser client (`src/unnamed/part_000`,
`src/UI/results.js`) together with spec-modelled definitions for the backend
components (Job Orchestrator, Result Store, Enrichment Orchestrator,
Query/Export Façade) whose code is documented in the repository but not present
under `src/`.
-/

namespace Parsflow

/-! ## Job states (spec §4.1) -/

/-- The job lifecycle states `pending → processing → {completed | failed}`. -/
inductive JobState where
  | pending
  | processing
  | completed
  | failed
deriving DecidableEq, Repr

/-- A state is terminal iff it is `completed` or `failed`. -/
def JobState.isTerminal : JobState → Bool
  | .completed => true
  | .failed => true
  | _ => false

/-- Modelled from the spec: the Job Orchestrator's state machine
(`src/` holds only the client; spec §4.1: "State machine with states
`pending → processing → {completed | failed}`").  The allowed transitions. -/
inductive JobTransition : JobState → JobState → Prop where
  | toProcessing : JobTransition .pending .processing
  | complete : JobTransition .processing .completed
  | fail : JobTransition .processing .failed

/-! ## Client status polling (`src/unnamed/part_000`, `pollJobStatus`, lines 301–339) -/

/-- Status string of a fetched job, as the client receives it over the API. -/
def statusString : JobState → String
  | .pending => "pending"
  | .processing => "processing"
  | .completed => "completed"
  | .failed => "failed"

/-- One fetch outcome inside the poll loop: a JSON job object carrying a
status string, or a thrown error (network failure, bad JSON, …). -/
inductive PollResult where
  | ok (status : String)
  | fetchError
deriving DecidableEq, Repr

/-- Client-side polling state: the `activePolling` set of job ids
(`src/unnamed/part_000` line 10). -/
structure PollState where
  activePolling : List String
deriving DecidableEq, Repr

/-- The terminal test of the poll loop
(`job.status === 'completed' || job.status === 'failed'`, line 317). -/
def isTerminalStatus (s : String) : Bool :=
  s == "completed" || s == "failed"

/-- The body of `pollJobStatus`'s inner `poll` closure (lines 308–336),
driven by the list of successive fetch outcomes.  Each list element is one
fetch; the recursion into the tail is the `setTimeout(poll, POLL_INTERVAL)`
call, so stopping the recursion models scheduling no further poll.  Returns
the final polling state together with the list of observed status strings
(`updateJobInList` is called on each successfully fetched job). -/
def pollLoop (jobId : String) (s : PollState) : List PollResult → PollState × List String
  | [] => (s, [])
  | .fetchError :: _ => (⟨s.activePolling.erase jobId⟩, [])
  | .ok st :: rest =>
      if isTerminalStatus st then
        (⟨s.activePolling.erase jobId⟩, [st])
      else
        let r := pollLoop jobId s rest
        (r.1, st :: r.2)

/-- `pollJobStatus` (lines 301–339): a no-op when the id is already in
`activePolling`; otherwise the id is added to the set and the poll loop
starts. -/
def pollJobStatus (jobId : String) (s : PollState) (responses : List PollResult) :
    PollState × List String :=
  if jobId ∈ s.activePolling then (s, [])
  else pollLoop jobId ⟨jobId :: s.activePolling⟩ responses

/-! ## Client job filtering (`src/unnamed/part_000`, `filterJobs`, lines 285–295) -/

/-- A job record as the client's jobs list holds it. -/
structure Job where
  job_id : String
  status : String
  filename : Option String
  created_at : Nat
deriving DecidableEq, Repr

/-- `filterJobs` (lines 285–295): with an empty filter value the full list is
displayed; otherwise only the jobs whose status equals the filter value. -/
def filterJobs (filterValue : String) (allJobs : List Job) : List Job :=
  if filterValue = "" then allJobs
  else allJobs.filter (fun job => job.status == filterValue)

/-! ## Job Orchestrator admission (spec §4.1, §5) -/

namespace Orchestrator

/-- Modelled from the spec: the Job Orchestrator's shared admission state
(the orchestrator code is not under `src/`; spec §4.1 and §5).  `pendingQueue`
holds the ids of jobs in `pending`, in submission order; `processing` the ids
of jobs currently in `processing`. -/
structure State where
  pendingQueue : List Nat
  processing : List Nat
deriving DecidableEq, Repr

/-- The empty orchestrator state at startup. -/
def State.init : State := ⟨[], []⟩

/-- Modelled from the spec: `submit` admission (spec §4.1: "If the number of
jobs currently in `processing` has reached a configured concurrency limit,
the new job is created in `pending`…").  `limit` is `MAX_CONCURRENT_JOBS`. -/
def submit (limit : Nat) (s : State) (j : Nat) : State :=
  if s.processing.length < limit then { s with processing := s.processing ++ [j] }
  else { s with pendingQueue := s.pendingQueue ++ [j] }

/-- Modelled from the spec: a processing slot frees when job `j` reaches a
terminal state; the earliest-submitted pending job, if any, is moved into
`processing` (spec §4.1 FIFO fairness, §5 FIFO admission). -/
def release (s : State) (j : Nat) : State :=
  match s.pendingQueue with
  | [] => { s with processing := s.processing.erase j }
  | h :: t => { pendingQueue := t, processing := s.processing.erase j ++ [h] }

/-- The orchestrator's admission-level steps: a submission of a fresh job, or
the release of a slot held by a processing job. -/
inductive Step (limit : Nat) : State → State → Prop where
  | submit (s : State) (j : Nat) : Step limit s (submit limit s j)
  | release (s : State) (j : Nat) (h : j ∈ s.processing) : Step limit s (release s j)

/-- A state reachable from startup by admission-level steps. -/
def Reachable (limit : Nat) : State → Prop :=
  Relation.ReflTransGen (Step limit) State.init

end Orchestrator

/-! ## Structured document data model (spec §3) -/

/-- A bounding box with left/top/right/bottom coordinates. -/
structure BBox where
  left : Int
  top : Int
  right : Int
  bottom : Int
deriving DecidableEq, Repr

/-- A text item of a structured document (label, text, optional page,
optional bounding box). -/
structure TextItem where
  label : Option String
  text : String
  page : Option Nat
  bbox : Option BBox
deriving DecidableEq, Repr

/-- A picture item of a structured document. -/
structure PictureItem where
  id : String
  page : Option Nat
  bbox : Option BBox
  caption : Option String
  image_uri : Option String
  description : Option String
  description_provider : Option String
deriving DecidableEq, Repr

/-- A table item: tabular data keyed by column; each column maps a row key to
an optional cell value (`none` models a JSON `null`). -/
structure TableItem where
  id : String
  page : Option Nat
  rows : Option Nat
  columns : Option Nat
  data : List (String × List (String × Option String))
  dataframe_csv : Option String
deriving DecidableEq, Repr

/-- Document metadata (spec §3). -/
structure Metadata where
  filename : String
  file_size_bytes : Nat
  mimetype : Option String
  page_count : Nat
  processing_time_ms : Option Nat
  binary_hash : Option String
  parsed_at : Nat
deriving DecidableEq, Repr

/-- The parsed artifact: ordered item lists, the markdown rendering, and
metadata (spec §3, `StructuredDocument`). -/
structure StructuredDocument where
  texts : List TextItem
  tables : List TableItem
  pictures : List PictureItem
  markdown : String
  metadata : Metadata
deriving DecidableEq, Repr

/-! ## Enrichment Orchestrator (spec §4.3) -/

/-- Modelled from the spec: the per-image outcome of one `describe` call —
`none` is a `ProviderError`, `some text` a successful description
(spec §4.2).  Indexed by the image's position in the input list. -/
def DescribeOutcome := Nat → Option String

/-- Modelled from the spec: merging one `describe` outcome into one picture
(spec §4.3: "a failing image keeps `description = null` and is otherwise
left intact"). -/
def enrichOne (provider : String) (outcome : Option String) (img : PictureItem) :
    PictureItem :=
  match outcome with
  | none => { img with description := none }
  | some text => { img with description := some text,
                            description_provider := some provider }

/-- Helper of `enrich`: fans out over the image list, pairing image `i` with
outcome `describe i`. -/
def enrichFrom (provider : String) (describe : DescribeOutcome) :
    Nat → List PictureItem → List PictureItem
  | _, [] => []
  | i, img :: rest =>
      enrichOne provider (describe i) img :: enrichFrom provider describe (i + 1) rest

/-- Modelled from the spec: `enrich(images, provider, prompt)` (spec §4.3).
For the `none` provider nothing runs; otherwise one `describe` call per
image, failures isolated per image, output in input order. -/
def enrich (provider : String) (describe : DescribeOutcome)
    (images : List PictureItem) : List PictureItem :=
  if provider = "none" then images
  else enrichFrom provider describe 0 images

/-! ## Parsing Pipeline Adapter (spec §4.4) -/

/-- The submission options relevant to enrichment (spec §6). -/
structure ParseOptions where
  parsing_mode : String
  extract_images : Bool
  extract_tables : Bool
  images_scale : Nat
  describe_images : Bool
  description_provider : String
deriving DecidableEq, Repr

/-- A raw picture as the external extractor yields it: no description. -/
structure RawPicture where
  id : String
  page : Option Nat
  bbox : Option BBox
  caption : Option String
  image_uri : Option String
deriving DecidableEq, Repr

/-- Modelled from the spec: normalising one extractor picture into a
`PictureItem` (spec §4.4); extraction never yields a description. -/
def rawToPicture (r : RawPicture) : PictureItem :=
  { id := r.id, page := r.page, bbox := r.bbox, caption := r.caption,
    image_uri := r.image_uri, description := none, description_provider := none }

/-- Modelled from the spec: the adapter's picture pipeline (spec §4.4:
"when `describe_images` is requested …, invoke the Enrichment Orchestrator
and merge results back before returning"). -/
def pipelinePictures (opts : ParseOptions) (raw : List RawPicture)
    (describe : DescribeOutcome) : List PictureItem :=
  let base := raw.map rawToPicture
  if opts.describe_images then enrich opts.description_provider describe base
  else base

/-! ## Client form behaviour (`src/unnamed/part_000`, `initializeApp`, lines 24–37) -/

/-- The `describeImages` checkbox change handler (lines 29–36): checking it
sets the provider select to `docling`, unchecking it to `none`. -/
def descriptionProviderAfterToggle (checked : Bool) : String :=
  if checked then "docling" else "none"

/-! ## Result Store (spec §4.5) -/

/-- Modelled from the spec: the outcome of a Result Store `get`
(spec §4.5: `get(job_id) -> document | NotFound | Expired`). -/
inductive GetOutcome where
  | found (doc : StructuredDocument)
  | notFound
  | expired
deriving DecidableEq, Repr

/-- A stored entry: the document plus the absolute expiry instant computed
at insertion time. -/
structure StoreEntry where
  doc : StructuredDocument
  expiresAt : Nat
deriving DecidableEq, Repr

/-- Modelled from the spec: the Result Store, a keyed TTL-evicting cache
(spec §4.5; `RESULTS_TTL_SECONDS` in the repository's configuration docs). -/
structure ResultStore where
  ttl : Nat
  entries : List (String × StoreEntry)
deriving DecidableEq, Repr

/-- Modelled from the spec: `put(job_id, document)` at instant `now`
("TTL is fixed per store instance …, measured from `put` time"). -/
def ResultStore.put (st : ResultStore) (jobId : String) (doc : StructuredDocument)
    (now : Nat) : ResultStore :=
  { st with entries := (jobId, ⟨doc, now + st.ttl⟩) :: st.entries }

/-- Modelled from the spec: `get(job_id)` at instant `now` — `NotFound` for
an unknown id, `Expired` once the expiry instant has passed, otherwise the
document (spec §4.5). -/
def ResultStore.get (st : ResultStore) (jobId : String) (now : Nat) : GetOutcome :=
  match st.entries.lookup jobId with
  | none => .notFound
  | some e => if e.expiresAt ≤ now then .expired else .found e.doc

/-- The caller-facing view of a `get` outcome: is a document available?
Both `notFound` and `expired` read as unavailable (spec §4.5: "`get` on an
expired entry behaves identically to `NotFound` from the caller's point of
view"). -/
def GetOutcome.isAvailable : GetOutcome → Bool
  | .found _ => true
  | _ => false

/-! ## Result query status codes (API README, error-code table) -/

/-- Modelled from the spec: the HTTP status the result-query endpoint
answers with, from the job's state and the store outcome (repository API
README error table: `PROCESSING` → 202, `PARSING_FAILED` → 500,
`JOB_NOT_FOUND` → 404, `RESULT_EXPIRED` → 410). -/
def resultQueryStatus (jobState : JobState) (outcome : GetOutcome) : Nat :=
  match jobState with
  | .pending => 202
  | .processing => 202
  | .failed => 500
  | .completed =>
      match outcome with
      | .found _ => 200
      | .notFound => 404
      | .expired => 410

/-! ## Results page loading (`src/UI/results.js`, `loadResults`, lines 89–123) -/

/-- An HTTP response as `loadResults` consumes it: status code plus the body
fields the different branches read. -/
structure HttpResponse where
  status : Nat
  errorField : String
  detailMessage : String
  statusText : String
  payload : StructuredDocument
deriving DecidableEq, Repr

/-- What the results page ends up displaying. -/
inductive Display where
  | errorNotFound
  | errorProcessing (status : String)
  | errorParseFailed (msg : String)
  | errorGeneric (msg : String)
  | showResults (results : StructuredDocument)
deriving DecidableEq, Repr

/-- `loadResults` (lines 89–123): dispatch on the response status — 404 →
"Results not found…", 202 → "Job is still processing…", 500 → "Parsing
failed…", any other non-ok status throws and is caught into a generic
error, otherwise the results are displayed. -/
def loadResults (resp : HttpResponse) : Display :=
  if resp.status = 404 then .errorNotFound
  else if resp.status = 202 then .errorProcessing resp.errorField
  else if resp.status = 500 then .errorParseFailed resp.detailMessage
  else if ¬ (200 ≤ resp.status ∧ resp.status ≤ 299) then .errorGeneric resp.statusText
  else .showResults resp.payload

/-! ## Query/Export Façade (spec §4.6; `src/UI/results.js` lines 441–466) -/

/-- Modelled from the spec: `get_texts(job_id, page?, label?)` filtering
(spec §4.6: "Filtering is a pure, order-preserving subsequence selection"). -/
def getTexts (texts : List TextItem) (page : Option Nat) (label : Option String) :
    List TextItem :=
  texts.filter (fun t =>
    (match page with | none => true | some p => t.page == some p) &&
    (match label with | none => true | some l => t.label == some l))

/-- Modelled from the spec: `export_markdown` renders the stored markdown
(spec §4.6); read-only on the store. -/
def exportMarkdownOp (st : ResultStore) (jobId : String) (now : Nat) :
    Option String × ResultStore :=
  match st.get jobId now with
  | .found doc => (some doc.markdown, st)
  | _ => (none, st)

/-- Modelled from the spec: a deterministic JSON rendering of a document's
metadata line (filename, page count, byte size). -/
def metadataJson (m : Metadata) : String :=
  "\x7b\"filename\": \"" ++ m.filename ++ "\", \"page_count\": " ++
    toString m.page_count ++ ", \"file_size_bytes\": " ++
    toString m.file_size_bytes ++ "\x7d"

/-- Modelled from the spec: `export_json` — a deterministic serialisation of
the stored document (spec §4.6, §8: "repeated export calls produce
byte-identical output"); read-only on the store. -/
def exportJsonOp (st : ResultStore) (jobId : String) (now : Nat) :
    Option String × ResultStore :=
  match st.get jobId now with
  | .found doc =>
      (some ("\x7b\"metadata\": " ++ metadataJson doc.metadata ++
        ", \"markdown\": \"" ++ doc.markdown ++ "\"\x7d"), st)
  | _ => (none, st)

/-! ## Table rendering (`src/UI/results.js`, `renderTableData`, lines 280–318) -/

/-- A cell inside a column object: a JSON `null` (or explicit `undefined`
property value), or a defined value modelled by its `String(value)`
rendering. -/
inductive JSCell where
  | jnull
  | jstr (s : String)
deriving DecidableEq, Repr

/-- One column object: association list from row key to cell. -/
abbrev JSColumn := List (String × JSCell)

/-- The value of one column of the `data` object.  `colNull` is `null` or
`undefined` — on these, both `Object.keys(firstColumn)` (line 294) and the
row access `data[col][i]` (line 308) throw a `TypeError`.  `colObj` is an
object of cells keyed by row; a non-null primitive is also represented by
`colObj` through JavaScript's object coercion (`Object.keys(5) = []`,
`("ab")[0] = "a"`), under which it never throws. -/
inductive JSColVal where
  | colNull
  | colObj (cells : JSColumn)
deriving DecidableEq, Repr

/-- The `data` argument of `renderTableData`: `null`, a non-object
primitive (both rejected by the guard at lines 282–284), or an object of
column values. -/
inductive JSData where
  | jsNull
  | nonObject
  | obj (cols : List (String × JSColVal))
deriving Repr

/-- `escapeHtml` (lines 495–499): a text node's `innerHTML` escapes the
three HTML-significant characters. -/
def escapeHtml (text : String) : String :=
  String.join (text.toList.map (fun c =>
    if c = '&' then "&amp;"
    else if c = '<' then "&lt;"
    else if c = '>' then "&gt;"
    else String.singleton c))

/-- One body cell (lines 307–311): `data[col][i]`, with `null` and
`undefined` replaced by the empty string, escaped into a `<td>`.  When the
column's value is `null`/`undefined`, the property access itself throws:
modelled as `none`. -/
def renderCellM (v : JSColVal) (i : Nat) : Option String :=
  match v with
  | .colNull => none
  | .colObj cells =>
      let value := match cells.lookup (toString i) with
        | some (.jstr s) => s
        | some .jnull => ""
        | none => ""
      some ("<td>" ++ escapeHtml value ++ "</td>")

/-- The cells of one body row (the inner `forEach` of lines 307–312), in
column order; `none` when some column access throws. -/
def renderRowCells (cols : List (String × JSColVal)) (i : Nat) :
    Option (List String) :=
  match cols with
  | [] => some []
  | c :: rest =>
      match renderCellM c.2 i with
      | none => none
      | some cell =>
          match renderRowCells rest i with
          | none => none
          | some cells => some (cell :: cells)

/-- One body row (lines 305–313). -/
def renderRowM (cols : List (String × JSColVal)) (i : Nat) : Option String :=
  match renderRowCells cols i with
  | none => none
  | some cells => some ("<tr>" ++ String.join cells ++ "</tr>")

/-- The body rows for the given row indices (the `for` loop of lines
305–313); `none` as soon as one row throws. -/
def renderRowsAux (cols : List (String × JSColVal)) :
    List Nat → Option (List String)
  | [] => some []
  | i :: is =>
      match renderRowM cols i with
      | none => none
      | some row =>
          match renderRowsAux cols is with
          | none => none
          | some rows => some (row :: rows)

/-- The header row (lines 298–301): one `<th>` per column name. -/
def renderHeader (cols : List (String × JSColVal)) : String :=
  String.join (cols.map (fun c => "<th>" ++ escapeHtml c.1 ++ "</th>"))

/-- `renderTableData` (lines 280–318): placeholder for `null`/non-object
input, placeholder for an object with no columns; otherwise
`Object.keys(firstColumn)` (line 294) — which throws a `TypeError` when
the first column's value is `null`/`undefined`, modelled as `none` — fixes
the row count, and the table is rendered with one body row per key of the
first column's object.  A thrown `TypeError` anywhere discards the whole
output. -/
def renderTableData (data : JSData) : Option String :=
  match data with
  | .jsNull => some "<p class=\"text-muted\">No table data available</p>"
  | .nonObject => some "<p class=\"text-muted\">No table data available</p>"
  | .obj [] => some "<p class=\"text-muted\">Empty table</p>"
  | .obj (c0 :: rest) =>
      match c0.2 with
      | .colNull => none
      | .colObj cells =>
          match renderRowsAux (c0 :: rest) (List.range cells.length) with
          | none => none
          | some rows =>
              some ("<table><thead><tr>" ++ renderHeader (c0 :: rest) ++
                "</tr></thead><tbody>" ++ String.join rows ++ "</tbody></table>")

/-! ## Helper lemmas on the poll loop -/

/-- Whether a response sequence makes the poll loop stop: a fetch error or a
terminal status is reached. -/
def hitsStop : List PollResult → Bool
  | [] => false
  | .fetchError :: _ => true
  | .ok st :: rest => if isTerminalStatus st then true else hitsStop rest

theorem pollLoop_obs_terminal_last (jobId : String) :
    ∀ (responses : List PollResult) (s : PollState) (pre : List String)
      (st : String) (post : List String),
      (pollLoop jobId s responses).2 = pre ++ st :: post →
      isTerminalStatus st = true → post = [] := by
  intro responses
  induction responses with
  | nil => intro s pre st post h _; simp [pollLoop] at h
  | cons r rest ih =>
    intro s pre st post h hterm
    cases r with
    | fetchError => simp [pollLoop] at h
    | ok st' =>
      by_cases hs : isTerminalStatus st'
      · simp [pollLoop, hs] at h
        cases pre with
        | nil =>
          simp at h
          exact h.2
        | cons a pre' => simp at h
      · simp [pollLoop, hs] at h
        cases pre with
        | nil =>
          simp at h
          rw [h.1] at hs
          exact absurd hterm hs
        | cons a pre' =>
          simp at h
          exact ih s pre' st post h.2 hterm

theorem pollLoop_final_state (jobId : String) :
    ∀ (responses : List PollResult) (s : PollState),
      (pollLoop jobId s responses).1 =
        if hitsStop responses then ⟨s.activePolling.erase jobId⟩ else s := by
  intro responses
  induction responses with
  | nil => intro s; simp [pollLoop, hitsStop]
  | cons r rest ih =>
    intro s
    cases r with
    | fetchError => simp [pollLoop, hitsStop]
    | ok st' =>
      by_cases hs : isTerminalStatus st'
      · simp [pollLoop, hitsStop, hs]
      · simp [pollLoop, hitsStop, hs, ih]

/-! ## Claim theorems: job lifecycle -/

/-- C1: the job state transitions only along
`pending → processing → {completed | failed}` — terminal states never
transition again, no transition skips `processing` — and once the client's
poll loop observes a terminal status it records no later observation for
that job (the loop returns without scheduling another poll). -/
theorem job_state_machine_and_poll_stops :
    (∀ t : JobState, ¬ JobTransition .completed t) ∧
    (∀ t : JobState, ¬ JobTransition .failed t) ∧
    (∀ t : JobState, JobTransition .pending t → t = .processing) ∧
    (∀ (jobId : String) (s : PollState) (responses : List PollResult)
       (pre : List String) (st : String) (post : List String),
       (pollJobStatus jobId s responses).2 = pre ++ st :: post →
       isTerminalStatus st = true → post = []) := by
  refine ⟨?_, ?_, ?_, ?_⟩
  · intro t h; cases h
  · intro t h; cases h
  · intro t h; cases h; rfl
  · intro jobId s responses pre st post h hterm
    unfold pollJobStatus at h
    by_cases hmem : jobId ∈ s.activePolling
    · simp [hmem] at h
    · rw [if_neg hmem] at h
      exact pollLoop_obs_terminal_last jobId responses _ pre st post h hterm

/-- Witness for C1 at concrete inputs. -/
theorem job_state_machine_and_poll_stops_witness :
    (¬ JobTransition .completed .processing) ∧ (([] : List String) = []) :=
  ⟨job_state_machine_and_poll_stops.1 .processing,
   job_state_machine_and_poll_stops.2.2.2 "j" ⟨[]⟩
     [.ok "processing", .ok "completed"] ["processing"] "completed" []
     (by decide) (by decide)⟩

/-- C9: at most one poll loop runs per job id — `pollJobStatus` is a no-op
when the id is already in `activePolling`; otherwise the id is in
`activePolling` while no terminal status or fetch error has been seen, and
it is removed exactly when one is (after which the loop schedules no
further poll, see the last conjunct of the C1 theorem). -/
theorem poll_single_loop_per_job :
    (∀ (jobId : String) (s : PollState) (responses : List PollResult),
       jobId ∈ s.activePolling → pollJobStatus jobId s responses = (s, [])) ∧
    (∀ (jobId : String) (s : PollState) (responses : List PollResult),
       jobId ∉ s.activePolling → hitsStop responses = false →
       (pollJobStatus jobId s responses).1.activePolling = jobId :: s.activePolling) ∧
    (∀ (jobId : String) (s : PollState) (responses : List PollResult),
       jobId ∉ s.activePolling → hitsStop responses = true →
       (pollJobStatus jobId s responses).1.activePolling = s.activePolling) := by
  refine ⟨?_, ?_, ?_⟩
  · intro jobId s responses hmem
    simp [pollJobStatus, hmem]
  · intro jobId s responses hmem hstop
    simp [pollJobStatus, hmem, pollLoop_final_state, hstop]
  · intro jobId s responses hmem hstop
    simp [pollJobStatus, hmem, pollLoop_final_state, hstop]

/-- Witness for C9 at concrete inputs. -/
theorem poll_single_loop_per_job_witness :
    (pollJobStatus "j" ⟨["j"]⟩ [.ok "processing"] = (⟨["j"]⟩, [])) ∧
    ((pollJobStatus "j" ⟨[]⟩ [.ok "processing"]).1.activePolling = ["j"]) ∧
    ((pollJobStatus "j" ⟨[]⟩ [.ok "completed"]).1.activePolling = []) :=
  ⟨poll_single_loop_per_job.1 "j" ⟨["j"]⟩ [.ok "processing"] (by decide),
   poll_single_loop_per_job.2.1 "j" ⟨[]⟩ [.ok "processing"] (by decide) (by decide),
   poll_single_loop_per_job.2.2 "j" ⟨[]⟩ [.ok "completed"] (by decide) (by decide)⟩

/-! ## Claim theorem: concurrency cap and FIFO admission -/

theorem step_preserves_cap {limit : Nat} {s s' : Orchestrator.State}
    (hstep : Orchestrator.Step limit s s') (ih : s.processing.length ≤ limit) :
    s'.processing.length ≤ limit := by
  cases hstep with
  | submit j =>
    unfold Orchestrator.submit
    by_cases hlt : s.processing.length < limit
    · simp [hlt]; omega
    · simp [hlt]; exact ih
  | release j hj =>
    unfold Orchestrator.release
    cases hq : s.pendingQueue with
    | nil =>
      simp
      calc (s.processing.erase j).length ≤ s.processing.length :=
            List.length_erase_le j s.processing
        _ ≤ limit := ih
    | cons h t =>
      simp [List.length_erase_of_mem hj]
      have h1 : 0 < s.processing.length := List.length_pos_of_mem hj
      omega

/-- C2: in every state reachable by submissions and releases, at most
`limit` jobs are in `processing`; a submission at capacity goes to the
pending queue (and below capacity straight to `processing`); a freed slot
moves the earliest-submitted pending job into processing (FIFO). -/
theorem concurrency_cap_and_fifo :
    (∀ (limit : Nat) (s : Orchestrator.State),
       Orchestrator.Reachable limit s → s.processing.length ≤ limit) ∧
    (∀ (limit : Nat) (s : Orchestrator.State) (j : Nat),
       s.processing.length = limit →
       (Orchestrator.submit limit s j).processing = s.processing ∧
       (Orchestrator.submit limit s j).pendingQueue = s.pendingQueue ++ [j]) ∧
    (∀ (limit : Nat) (s : Orchestrator.State) (j : Nat),
       s.processing.length < limit →
       (Orchestrator.submit limit s j).processing = s.processing ++ [j]) ∧
    (∀ (s : Orchestrator.State) (j h : Nat) (t : List Nat),
       s.pendingQueue = h :: t →
       (Orchestrator.release s j).processing = s.processing.erase j ++ [h] ∧
       (Orchestrator.release s j).pendingQueue = t) := by
  refine ⟨?_, ?_, ?_, ?_⟩
  · intro limit s hreach
    induction hreach with
    | refl => simp [Orchestrator.State.init]
    | tail _ hstep ih => exact step_preserves_cap hstep ih
  · intro limit s j hcap
    have : ¬ s.processing.length < limit := by omega
    simp [Orchestrator.submit, this]
  · intro limit s j hlt
    simp [Orchestrator.submit, hlt]
  · intro s j h t hq
    simp [Orchestrator.release, hq]

/-- Witness for C2 at concrete inputs: with limit 1, one submission is
processing, a second waits in pending, and releasing moves it into processing. -/
theorem concurrency_cap_and_fifo_witness :
    ((⟨[], [7]⟩ : Orchestrator.State).processing.length ≤ 1) ∧
    ((Orchestrator.submit 1 ⟨[], [7]⟩ 8).processing = [7]) ∧
    ((Orchestrator.release ⟨[8], [7]⟩ 7).processing = [8]) :=
  ⟨concurrency_cap_and_fifo.1 1 ⟨[], [7]⟩
     (Relation.ReflTransGen.single (Orchestrator.Step.submit Orchestrator.State.init 7)),
   (concurrency_cap_and_fifo.2.1 1 ⟨[], [7]⟩ 8 (by decide)).1,
   by
     have := (concurrency_cap_and_fifo.2.2.2 ⟨[8], [7]⟩ 7 8 [] (by decide)).1
     simpa using this⟩

/-! ## Helper lemmas on enrichment -/

theorem enrichFrom_length (provider : String) (describe : DescribeOutcome) :
    ∀ (images : List PictureItem) (k : Nat),
      (enrichFrom provider describe k images).length = images.length := by
  intro images
  induction images with
  | nil => intro k; rfl
  | cons img rest ih => intro k; simp [enrichFrom, ih]

theorem enrichFrom_getElem (provider : String) (describe : DescribeOutcome) :
    ∀ (images : List PictureItem) (k i : Nat),
      (enrichFrom provider describe k images)[i]? =
        (images[i]?).map (enrichOne provider (describe (k + i))) := by
  intro images
  induction images with
  | nil => intro k i; simp [enrichFrom]
  | cons img rest ih =>
    intro k i
    cases i with
    | zero => simp [enrichFrom]
    | succ n =>
      have harith : k + 1 + n = k + (n + 1) := by omega
      simp [enrichFrom, ih (k + 1) n, harith]

/-! ## Claim theorem: per-image failure isolation in enrichment -/

/-- C3: for a non-`none` provider and any pattern of per-image outcomes,
`enrich` returns exactly as many pictures as it received, element `i` of the
output is element `i` of the input merged with outcome `i` (so order is
preserved), a failed call leaves the picture intact with `description =
none`, and a successful call yields a non-null description; `enrich` is a
total function, so the operation never fails the job. -/
theorem enrich_isolates_failures :
    ∀ (provider : String), provider ≠ "none" →
    ∀ (describe : DescribeOutcome) (images : List PictureItem),
      ((enrich provider describe images).length = images.length) ∧
      (∀ i : Nat, (enrich provider describe images)[i]? =
        (images[i]?).map (enrichOne provider (describe i))) ∧
      (∀ img : PictureItem,
        enrichOne provider none img = { img with description := none }) ∧
      (∀ (img : PictureItem) (t : String),
        (enrichOne provider (some t) img).description = some t) := by
  intro provider hp describe images
  refine ⟨?_, ?_, ?_, ?_⟩
  · simp [enrich, hp, enrichFrom_length]
  · intro i
    have h := enrichFrom_getElem provider describe images 0 i
    rw [Nat.zero_add] at h
    simpa [enrich, hp] using h
  · intro img; rfl
  · intro img t; rfl

/-- Witness for C3 at concrete inputs: two images, the first call fails, the
second succeeds. -/
theorem enrich_isolates_failures_witness :
    ((enrich "docling"
        (fun i => if i = 0 then none else some "a chart")
        [⟨"p0", some 1, none, some "cap0", none, none, none⟩,
         ⟨"p1", some 2, none, none, none, none, none⟩]).length = 2) ∧
    ((enrichOne "docling" (some "a chart")
        (⟨"p1", some 2, none, none, none, none, none⟩ : PictureItem)).description
      = some "a chart") := by
  have h := enrich_isolates_failures "docling" (by decide)
    (fun i => if i = 0 then none else some "a chart")
    [⟨"p0", some 1, none, some "cap0", none, none, none⟩,
     ⟨"p1", some 2, none, none, none, none, none⟩]
  exact ⟨h.1, h.2.2.2 ⟨"p1", some 2, none, none, none, none, none⟩ "a chart"⟩

/-! ## Claim theorem: descriptions only when requested and succeeded -/

/-- C5: unchecking the `describeImages` checkbox makes the client send
`description_provider = "none"`; when `describe_images` is off or the
provider is `none`, every picture of the pipeline output has `description =
none` and `description_provider = none`; and in general a non-null
description at position `i` implies enrichment was requested with a
non-`none` provider and call `i` succeeded. -/
theorem description_requires_request_and_success :
    (descriptionProviderAfterToggle false = "none") ∧
    (∀ (opts : ParseOptions) (raw : List RawPicture) (describe : DescribeOutcome),
       (opts.describe_images = false ∨ opts.description_provider = "none") →
       ∀ p ∈ pipelinePictures opts raw describe,
         p.description = none ∧ p.description_provider = none) ∧
    (∀ (opts : ParseOptions) (raw : List RawPicture) (describe : DescribeOutcome)
       (i : Nat) (p : PictureItem),
       (pipelinePictures opts raw describe)[i]? = some p → p.description ≠ none →
       opts.describe_images = true ∧ opts.description_provider ≠ "none" ∧
         describe i ≠ none) := by
  refine ⟨rfl, ?_, ?_⟩
  · intro opts raw describe hoff p hp
    have hbase : ∀ q ∈ raw.map rawToPicture,
        q.description = none ∧ q.description_provider = none := by
      intro q hq
      obtain ⟨r, _, rfl⟩ := List.mem_map.mp hq
      exact ⟨rfl, rfl⟩
    cases hoff with
    | inl hdi =>
      rw [pipelinePictures, hdi] at hp
      simp at hp
      obtain ⟨r, _, rfl⟩ := hp
      exact ⟨rfl, rfl⟩
    | inr hprov =>
      rw [pipelinePictures] at hp
      by_cases hdi : opts.describe_images
      · rw [if_pos hdi] at hp
        rw [enrich, if_pos hprov] at hp
        exact hbase p hp
      · rw [if_neg hdi] at hp
        exact hbase p hp
  · intro opts raw describe i p hp hne
    by_cases hdi : opts.describe_images
    · by_cases hprov : opts.description_provider = "none"
      · exfalso
        rw [pipelinePictures, if_pos hdi, enrich, if_pos hprov] at hp
        rw [List.getElem?_map] at hp
        cases hr : (raw[i]?) with
        | none => rw [hr] at hp; simp at hp
        | some r =>
          rw [hr] at hp
          simp at hp
          rw [← hp] at hne
          exact hne rfl
      · refine ⟨by simpa using hdi, hprov, ?_⟩
        rw [pipelinePictures, if_pos hdi, enrich, if_neg hprov] at hp
        rw [enrichFrom_getElem opts.description_provider describe _ 0 i] at hp
        rw [Nat.zero_add] at hp
        cases hb : (raw.map rawToPicture)[i]? with
        | none => rw [hb] at hp; simp at hp
        | some b =>
          rw [hb] at hp
          simp at hp
          cases hd : describe i with
          | none =>
            exfalso
            rw [hd] at hp
            rw [← hp] at hne
            exact hne rfl
          | some t => simp
    · exfalso
      rw [pipelinePictures, if_neg hdi] at hp
      rw [List.getElem?_map] at hp
      cases hr : (raw[i]?) with
      | none => rw [hr] at hp; simp at hp
      | some r =>
        rw [hr] at hp
        simp at hp
        rw [← hp] at hne
        exact hne rfl

/-- Witness for C5 at concrete inputs: `describe_images = false`. -/
theorem description_requires_request_and_success_witness :
    ∀ p ∈ pipelinePictures
        ⟨"standard", true, true, 2, false, "none"⟩
        [⟨"p0", some 1, none, none, none⟩]
        (fun _ => some "never used"),
      p.description = none ∧ p.description_provider = none :=
  description_requires_request_and_success.2.1
    ⟨"standard", true, true, 2, false, "none"⟩
    [⟨"p0", some 1, none, none, none⟩]
    (fun _ => some "never used")
    (Or.inl rfl)

/-! ## Claim theorem: expired results signal -/

/-- C4: a `get` after the TTL has elapsed returns `expired`; `expired` is a
distinct outcome from `notFound` (and the HTTP layer maps them to the
distinct codes 410 and 404), yet both read as "no document available" to
the caller; a never-inserted id reads `notFound`. -/
theorem expired_distinct_from_never_existed :
    (∀ (st : ResultStore) (jobId : String) (doc : StructuredDocument)
       (putTime now : Nat),
       putTime + st.ttl ≤ now →
       (ResultStore.put st jobId doc putTime).get jobId now = .expired) ∧
    (GetOutcome.expired ≠ GetOutcome.notFound) ∧
    (GetOutcome.isAvailable .expired = false) ∧
    (GetOutcome.isAvailable .notFound = false) ∧
    (∀ (ttl : Nat) (jobId : String) (now : Nat),
       ResultStore.get ⟨ttl, []⟩ jobId now = .notFound) ∧
    (resultQueryStatus .completed .expired = 410) ∧
    (resultQueryStatus .completed .notFound = 404) ∧
    ((410 : Nat) ≠ 404) := by
  refine ⟨?_, by simp, rfl, rfl, ?_, rfl, rfl, by omega⟩
  · intro st jobId doc putTime now h
    simp [ResultStore.put, ResultStore.get, List.lookup, h]
  · intro ttl jobId now
    simp [ResultStore.get, List.lookup]

/-- Witness for C4 at concrete inputs. -/
theorem expired_distinct_from_never_existed_witness :
    (ResultStore.put ⟨10, []⟩ "job1"
        ⟨[], [], [], "md", ⟨"f.pdf", 1, none, 1, none, none, 0⟩⟩ 0).get "job1" 11
      = .expired :=
  expired_distinct_from_never_existed.1 ⟨10, []⟩ "job1"
    ⟨[], [], [], "md", ⟨"f.pdf", 1, none, 1, none, none, 0⟩⟩ 0 11 (by decide)

/-! ## Claim theorem: export determinism and purity -/

/-- C7: the export operations never change the store (no mutation), so a
repeated call runs on an identical store and — since the output is a
function of the `get` outcome alone — produces byte-identical output; the
markdown export of a found document is exactly its stored markdown. -/
theorem exports_deterministic_and_pure :
    (∀ (st : ResultStore) (jobId : String) (now : Nat),
       (exportMarkdownOp st jobId now).2 = st ∧ (exportJsonOp st jobId now).2 = st) ∧
    (∀ (st : ResultStore) (jobId : String) (now : Nat),
       exportMarkdownOp (exportMarkdownOp st jobId now).2 jobId now
         = exportMarkdownOp st jobId now ∧
       exportJsonOp (exportJsonOp st jobId now).2 jobId now
         = exportJsonOp st jobId now) ∧
    (∀ (st st' : ResultStore) (j j' : String) (now now' : Nat),
       st.get j now = st'.get j' now' →
       (exportMarkdownOp st j now).1 = (exportMarkdownOp st' j' now').1 ∧
       (exportJsonOp st j now).1 = (exportJsonOp st' j' now').1) ∧
    (∀ (st : ResultStore) (jobId : String) (now : Nat) (doc : StructuredDocument),
       st.get jobId now = .found doc →
       (exportMarkdownOp st jobId now).1 = some doc.markdown) := by
  have hpure : ∀ (st : ResultStore) (jobId : String) (now : Nat),
      (exportMarkdownOp st jobId now).2 = st ∧ (exportJsonOp st jobId now).2 = st := by
    intro st jobId now
    constructor
    · unfold exportMarkdownOp
      cases st.get jobId now <;> rfl
    · unfold exportJsonOp
      cases st.get jobId now <;> rfl
  refine ⟨hpure, ?_, ?_, ?_⟩
  · intro st jobId now
    refine ⟨?_, ?_⟩
    · rw [(hpure st jobId now).1]
    · rw [(hpure st jobId now).2]
  · intro st st' j j' now now' h
    constructor
    · unfold exportMarkdownOp
      rw [h]
      cases st'.get j' now' <;> rfl
    · unfold exportJsonOp
      rw [h]
      cases st'.get j' now' <;> rfl
  · intro st jobId now doc h
    unfold exportMarkdownOp
    rw [h]

/-- Witness for C7 at concrete inputs. -/
theorem exports_deterministic_and_pure_witness :
    (exportMarkdownOp ⟨10, [("job1", ⟨⟨[], [], [], "# md", ⟨"f.pdf", 1, none, 1, none, none, 0⟩⟩, 10⟩)]⟩ "job1" 0).1
      = some "# md" :=
  exports_deterministic_and_pure.2.2.2
    ⟨10, [("job1", ⟨⟨[], [], [], "# md", ⟨"f.pdf", 1, none, 1, none, none, 0⟩⟩, 10⟩)]⟩
    "job1" 0 ⟨[], [], [], "# md", ⟨"f.pdf", 1, none, 1, none, none, 0⟩⟩ (by decide)

/-! ## Claim theorem: "still processing" signal -/

/-- C8: a result query on a non-terminal job answers 202, which the results
page turns into the "still processing, wait and refresh" display — an
outcome distinct from both the not-found display and the parse-failure
display. -/
theorem processing_signal_distinct :
    (∀ (js : JobState) (o : GetOutcome),
       (js = .pending ∨ js = .processing) → resultQueryStatus js o = 202) ∧
    (∀ resp : HttpResponse, resp.status = 202 →
       loadResults resp = .errorProcessing resp.errorField) ∧
    (∀ s : String, Display.errorProcessing s ≠ Display.errorNotFound) ∧
    (∀ s m : String, Display.errorProcessing s ≠ Display.errorParseFailed m) := by
  refine ⟨?_, ?_, ?_, ?_⟩
  · intro js o h
    cases h with
    | inl h => rw [h]; rfl
    | inr h => rw [h]; rfl
  · intro resp h
    simp [loadResults, h]
  · intro s h; cases h
  · intro s m h; cases h

/-- Witness for C8 at concrete inputs. -/
theorem processing_signal_distinct_witness :
    (resultQueryStatus .pending .notFound = 202) ∧
    (loadResults ⟨202, "processing", "", "Accepted",
        ⟨[], [], [], "", ⟨"", 0, none, 0, none, none, 0⟩⟩⟩
      = .errorProcessing "processing") :=
  ⟨processing_signal_distinct.1 .pending .notFound (Or.inl rfl),
   processing_signal_distinct.2.1
     ⟨202, "processing", "", "Accepted",
       ⟨[], [], [], "", ⟨"", 0, none, 0, none, none, 0⟩⟩⟩ rfl⟩

/-! ## Claim theorem: filtering is a pure order-preserving subsequence -/

/-- C6: the client's status filter and the text filter (by page and/or
label) each return an order-preserving subsequence containing exactly the
matching items; both are idempotent, filtering by a value every item
already has is the identity, and an unmatched filter yields the empty list
rather than an error. -/
theorem filters_pure_subsequence :
    (∀ (v : String) (l : List Job), List.Sublist (filterJobs v l) l) ∧
    (∀ (v : String) (l : List Job) (j : Job), v ≠ "" →
       (j ∈ filterJobs v l ↔ j ∈ l ∧ j.status = v)) ∧
    (∀ (v : String) (l : List Job), filterJobs v (filterJobs v l) = filterJobs v l) ∧
    (∀ (texts : List TextItem) (page : Option Nat) (label : Option String),
       List.Sublist (getTexts texts page label) texts) ∧
    (∀ (texts : List TextItem) (lab : String) (t : TextItem),
       t ∈ getTexts texts none (some lab) ↔ t ∈ texts ∧ t.label = some lab) ∧
    (∀ (texts : List TextItem) (page : Option Nat) (label : Option String),
       getTexts (getTexts texts page label) page label = getTexts texts page label) ∧
    (∀ (texts : List TextItem) (lab : String), (∀ t ∈ texts, t.label = some lab) →
       getTexts texts none (some lab) = texts) ∧
    (∀ (texts : List TextItem) (p : Nat), (∀ t ∈ texts, t.page ≠ some p) →
       getTexts texts (some p) none = []) := by
  refine ⟨?_, ?_, ?_, ?_, ?_, ?_, ?_, ?_⟩
  · intro v l
    by_cases hv : v = ""
    · simp [filterJobs, hv]
    · simp only [filterJobs, if_neg hv]
      exact List.filter_sublist l
  · intro v l j hv
    simp [filterJobs, hv, List.mem_filter]
  · intro v l
    by_cases hv : v = ""
    · simp [filterJobs, hv]
    · simp [filterJobs, hv, List.filter_filter]
  · intro texts page label
    exact List.filter_sublist texts
  · intro texts lab t
    simp [getTexts, List.mem_filter]
  · intro texts page label
    simp [getTexts, List.filter_filter]
  · intro texts lab h
    refine List.filter_eq_self.mpr ?_
    intro t ht
    simp [h t ht]
  · intro texts p h
    refine List.filter_eq_nil_iff.mpr ?_
    intro t ht
    simp [h t ht]

/-- Witness for C6 at concrete inputs. -/
theorem filters_pure_subsequence_witness :
    (⟨"a", "completed", none, 0⟩ ∈
        filterJobs "completed"
          [⟨"a", "completed", none, 0⟩, ⟨"b", "pending", none, 1⟩]
      ↔ (⟨"a", "completed", none, 0⟩ : Job) ∈
          [⟨"a", "completed", none, 0⟩, ⟨"b", "pending", none, 1⟩]
        ∧ ("completed" : String) = "completed") ∧
    (getTexts [⟨some "title", "T", some 1, none⟩] none (some "title")
      = [⟨some "title", "T", some 1, none⟩]) ∧
    (getTexts [⟨some "title", "T", some 1, none⟩] (some 9) none = []) := by
  refine ⟨?_, ?_, ?_⟩
  · have h := filters_pure_subsequence.2.1 "completed"
      [⟨"a", "completed", none, 0⟩, ⟨"b", "pending", none, 1⟩]
      ⟨"a", "completed", none, 0⟩ (by decide)
    simpa using h
  · exact filters_pure_subsequence.2.2.2.2.2.2.1
      [⟨some "title", "T", some 1, none⟩] "title" (by decide)
  · exact filters_pure_subsequence.2.2.2.2.2.2.2
      [⟨some "title", "T", some 1, none⟩] 9 (by decide)

/-! ## Helper lemmas on table rendering -/

theorem renderRowCells_of_allObj :
    ∀ (cols : List (String × JSColVal)) (i : Nat),
      (∀ c ∈ cols, ∃ cs, c.2 = JSColVal.colObj cs) →
      ∃ cells, renderRowCells cols i = some cells ∧ cells.length = cols.length := by
  intro cols
  induction cols with
  | nil => intro i _; exact ⟨[], rfl, rfl⟩
  | cons c rest ih =>
    intro i hall
    obtain ⟨cs, hcs⟩ := hall c (List.mem_cons_self c rest)
    obtain ⟨cells, hcells, hlen⟩ :=
      ih i (fun d hd => hall d (List.mem_cons_of_mem c hd))
    refine ⟨("<td>" ++ escapeHtml (match cs.lookup (toString i) with
      | some (.jstr s) => s
      | some .jnull => ""
      | none => "") ++ "</td>") :: cells, ?_, ?_⟩
    · simp only [renderRowCells, hcs, renderCellM, hcells]
    · simp [hlen]

theorem renderRowsAux_of_allObj :
    ∀ (is : List Nat) (cols : List (String × JSColVal)),
      (∀ c ∈ cols, ∃ cs, c.2 = JSColVal.colObj cs) →
      ∃ rows, renderRowsAux cols is = some rows ∧ rows.length = is.length := by
  intro is
  induction is with
  | nil => intro cols _; exact ⟨[], rfl, rfl⟩
  | cons i is ih =>
    intro cols hall
    obtain ⟨cells, hcells, _⟩ := renderRowCells_of_allObj cols i hall
    obtain ⟨rows, hrows, hlen⟩ := ih cols hall
    refine ⟨("<tr>" ++ String.join cells ++ "</tr>") :: rows, ?_, ?_⟩
    · simp only [renderRowsAux, renderRowM, hcells, hrows]
    · simp [hlen]

/-! ## Claim: table rendering -/

/-- C10 counterexample: `renderTableData` is not total on every value — for
the object `\x7b"a": null\x7d` the source throws a `TypeError` at
`Object.keys(firstColumn)` (line 294 checks only `data` itself, not the
column values), modelled here as `none` instead of an HTML string. -/
theorem renderTableData_throws_on_null_column :
    renderTableData (.obj [("a", JSColVal.colNull)]) = none := rfl

/-- C10 (amended): `null`/non-object data and a zero-column object each
yield a fixed placeholder; a first column whose value is `null`/`undefined`
makes `renderTableData` throw; and whenever every column's value is an
object, rendering succeeds with exactly one body row per key of the first
column's object, one cell per column in each row, and a `null` or missing
(`undefined`) cell rendered as an empty `<td></td>`, never as the text
`null`. -/
theorem renderTableData_shape_amended :
    (renderTableData .jsNull = some "<p class=\"text-muted\">No table data available</p>") ∧
    (renderTableData .nonObject = some "<p class=\"text-muted\">No table data available</p>") ∧
    (renderTableData (.obj []) = some "<p class=\"text-muted\">Empty table</p>") ∧
    (∀ (name : String) (rest : List (String × JSColVal)),
       renderTableData (.obj ((name, JSColVal.colNull) :: rest)) = none) ∧
    (∀ (cols : List (String × JSColVal)) (i : Nat),
       (∀ c ∈ cols, ∃ cs, c.2 = JSColVal.colObj cs) →
       ∃ cells, renderRowCells cols i = some cells ∧ cells.length = cols.length) ∧
    (∀ (name : String) (cells : JSColumn) (rest : List (String × JSColVal)),
       (∀ c ∈ rest, ∃ cs, c.2 = JSColVal.colObj cs) →
       ∃ rows,
         renderRowsAux ((name, JSColVal.colObj cells) :: rest)
             (List.range cells.length) = some rows ∧
         rows.length = cells.length ∧
         renderTableData (.obj ((name, JSColVal.colObj cells) :: rest)) =
           some ("<table><thead><tr>" ++
             renderHeader ((name, JSColVal.colObj cells) :: rest) ++
             "</tr></thead><tbody>" ++ String.join rows ++ "</tbody></table>")) ∧
    (∀ (cells : JSColumn) (i : Nat),
       cells.lookup (toString i) = some .jnull →
       renderCellM (JSColVal.colObj cells) i = some "<td></td>") ∧
    (∀ (cells : JSColumn) (i : Nat),
       cells.lookup (toString i) = none →
       renderCellM (JSColVal.colObj cells) i = some "<td></td>") := by
  refine ⟨rfl, rfl, rfl, ?_, ?_, ?_, ?_, ?_⟩
  · intro name rest; rfl
  · intro cols i hall
    exact renderRowCells_of_allObj cols i hall
  · intro name cells rest hrest
    have hall : ∀ c ∈ (name, JSColVal.colObj cells) :: rest,
        ∃ cs, c.2 = JSColVal.colObj cs := by
      intro c hc
      cases List.mem_cons.mp hc with
      | inl h => exact ⟨cells, by rw [h]⟩
      | inr h => exact hrest c h
    obtain ⟨rows, hrows, hlen⟩ :=
      renderRowsAux_of_allObj (List.range cells.length)
        ((name, JSColVal.colObj cells) :: rest) hall
    refine ⟨rows, hrows, by simpa using hlen, ?_⟩
    simp only [renderTableData, hrows]
  · intro cells i h
    simp only [renderCellM, h]
    rfl
  · intro cells i h
    simp only [renderCellM, h]
    rfl

/-- Witness for C10 at concrete inputs: a one-column object whose single
row cell is `null` renders as an empty cell. -/
theorem renderTableData_shape_amended_witness :
    renderCellM (JSColVal.colObj [("0", JSCell.jnull)]) 0 = some "<td></td>" :=
  renderTableData_shape_amended.2.2.2.2.2.2.1 [("0", JSCell.jnull)] 0 (by decide)

end Parsflow
